import Mathlib

/-!
# Attribute coding: coefficient interval tables and LoD reuse policy

A shallow embedding of `tmc3/AttributeCommon.cpp`:

* the constant tables `kCoeffIntervalStart` and `kCoeffToIntervalIdx`;
* the generating rule written in the comment above `kCoeffToIntervalIdx`;
* `AttributeLods::generate`, which rebuilds the levels of detail through the
  external predictor builder and recomputes every predictor's weights;
* `AttributeLods::isReusable`, the query deciding whether cached levels of
  detail may be reused for another attribute parameter set.

Machine integers are represented by `Nat` / `Int`; every table entry fits
its C++ element type (`uint16_t`, `uint8_t`), so no wrap-around occurs.
-/

namespace pcc

/-! ## Constants for attribute coding -/

/-- Number of coefficient intervals: the array bound `kCoeffIntervals` of the
source, declared in the header; `kCoeffIntervalStart` has one more entry. -/
def kCoeffIntervals : Nat := 16

/-- Largest tabulated magnitude: the array bound `kCoeffIntervalMax` of the
source, declared in the header; `kCoeffToIntervalIdx` has one more entry. -/
def kCoeffIntervalMax : Nat := 255

/-- The table `kCoeffIntervalStart[kCoeffIntervals + 1]`. -/
def kCoeffIntervalStart : List Nat :=
  [0, 1, 2, 3, 4, 6, 8, 12, 16, 24, 32, 48, 64, 96, 128, 192, 256]

/-- The table `kCoeffToIntervalIdx[kCoeffIntervalMax + 1]`, row by row as in
the source. -/
def kCoeffToIntervalIdx : List Nat :=
  [0,  1,  2,  3,  4,  4,  5,  5,  6,  6,  6,  6,  7,  7,  7,  7,  8,  8,  8,
   8,  8,  8,  8,  8,  9,  9,  9,  9,  9,  9,  9,  9,  10, 10, 10, 10, 10, 10,
   10, 10, 10, 10, 10, 10, 10, 10, 10, 10, 11, 11, 11, 11, 11, 11, 11, 11, 11,
   11, 11, 11, 11, 11, 11, 11, 12, 12, 12, 12, 12, 12, 12, 12, 12, 12, 12, 12,
   12, 12, 12, 12, 12, 12, 12, 12, 12, 12, 12, 12, 12, 12, 12, 12, 12, 12, 12,
   12, 13, 13, 13, 13, 13, 13, 13, 13, 13, 13, 13, 13, 13, 13, 13, 13, 13, 13,
   13, 13, 13, 13, 13, 13, 13, 13, 13, 13, 13, 13, 13, 13, 14, 14, 14, 14, 14,
   14, 14, 14, 14, 14, 14, 14, 14, 14, 14, 14, 14, 14, 14, 14, 14, 14, 14, 14,
   14, 14, 14, 14, 14, 14, 14, 14, 14, 14, 14, 14, 14, 14, 14, 14, 14, 14, 14,
   14, 14, 14, 14, 14, 14, 14, 14, 14, 14, 14, 14, 14, 14, 14, 14, 14, 14, 14,
   14, 14, 15, 15, 15, 15, 15, 15, 15, 15, 15, 15, 15, 15, 15, 15, 15, 15, 15,
   15, 15, 15, 15, 15, 15, 15, 15, 15, 15, 15, 15, 15, 15, 15, 15, 15, 15, 15,
   15, 15, 15, 15, 15, 15, 15, 15, 15, 15, 15, 15, 15, 15, 15, 15, 15, 15, 15,
   15, 15, 15, 15, 15, 15, 15, 15, 15]

/-- Reading `kCoeffToIntervalIdx[m]`: the classification of magnitude `m`.
An index past the end of the array has no value. -/
def classify (m : Nat) : Option Nat := kCoeffToIntervalIdx[m]?

/-- Reading `kCoeffIntervalStart[b]`; an index past the end has no value. -/
def intervalStart (b : Nat) : Option Nat := kCoeffIntervalStart[b]?

/-- Helper for `floorLog2`: halve until below two, counting the steps. -/
def floorLog2Aux : Nat → Nat → Nat
  | 0, _ => 0
  | fuel + 1, n => if n < 2 then 0 else floorLog2Aux fuel (n / 2) + 1

/-- The `floor(log2(n))` of the generating rule, for `n ≥ 1`. -/
def floorLog2 (n : Nat) : Nat := floorLog2Aux n n

/-- The generating rule in the comment above `kCoeffToIntervalIdx`:
`MagnGroup[n] = n` for `n < 2`, and otherwise
`2*t + ((n - (1<<t)) >> (t-1))` with `t = floor(log2(n))`. -/
def MagnGroup (n : Nat) : Nat :=
  if n < 2 then n
  else
    let t := floorLog2 n
    2 * t + ((n - (1 <<< t)) >>> (t - 1))

/-! ## AttributeLods -/

/-- Modelled from the spec: the attribute parameter set, whose declaration is
in a header outside this file. Only the members read by `isReusable` are
kept. `lodParametersPresent` is the derived predicate `hasLodParameters()`;
the element types of `lodNeighBias`, `dist2` and `lodSamplingPeriod` are
parameters, compared by their equality. -/
structure AttributeParameterSet (Bias Dist Period : Type) where
  lodParametersPresent : Bool
  num_pred_nearest_neighbours_minus1 : Int
  search_range : Int
  num_detail_levels : Int
  lodNeighBias : Bias
  scalable_lifting_enabled_flag : Bool
  lod_decimation_enabled_flag : Bool
  dist2 : Dist
  lodSamplingPeriod : Period
  intra_lod_prediction_enabled_flag : Bool
  canonical_point_order_flag : Bool
  deriving DecidableEq, Repr

/-- The state owned by `AttributeLods`: the parameter snapshot `_aps`, the
predictors, the cumulative point counts per level of detail
`numPointsInLod`, and the point ordering `indexes`. -/
structure AttributeLods (Bias Dist Period Pred : Type) where
  _aps : AttributeParameterSet Bias Dist Period
  predictors : List Pred
  numPointsInLod : List Nat
  indexes : List Nat

section Reuse

variable {Bias Dist Period Pred : Type}
variable [DecidableEq Bias] [DecidableEq Dist] [DecidableEq Period]

/-- The method `AttributeLods::isReusable(aps)`: each early `return` of the
source is one branch, in source order. -/
def AttributeLods.isReusable (self : AttributeLods Bias Dist Period Pred)
    (aps : AttributeParameterSet Bias Dist Period) : Bool :=
  -- No LoDs cached => can be reused by anything
  if self.numPointsInLod.isEmpty then true
  -- If the other aps doesn't use LoDs, it is compatible.
  else if !(self._aps.lodParametersPresent && aps.lodParametersPresent) then true
  else if self._aps.num_pred_nearest_neighbours_minus1
      != aps.num_pred_nearest_neighbours_minus1 then false
  else if self._aps.search_range != aps.search_range then false
  else if self._aps.num_detail_levels != aps.num_detail_levels then false
  else if self._aps.lodNeighBias != aps.lodNeighBias then false
  -- until this feature is stable, always generate LoDs.
  else if self._aps.scalable_lifting_enabled_flag
      || aps.scalable_lifting_enabled_flag then false
  else if self._aps.lod_decimation_enabled_flag
      != aps.lod_decimation_enabled_flag then false
  else if self._aps.dist2 != aps.dist2 then false
  else if self._aps.lodSamplingPeriod != aps.lodSamplingPeriod then false
  else if self._aps.intra_lod_prediction_enabled_flag
      != aps.intra_lod_prediction_enabled_flag then false
  else if self._aps.canonical_point_order_flag
      != aps.canonical_point_order_flag then false
  else true

/-- The reuse policy in the words of the specification, steps 1 to 5: no
structure held; either side without LoD parameters; the nine field
comparisons in sequence; the scalable-lifting escape hatch after them;
otherwise reusable. -/
def isReusablePolicy (self : AttributeLods Bias Dist Period Pred)
    (aps : AttributeParameterSet Bias Dist Period) : Bool :=
  if self.numPointsInLod.isEmpty then true
  else if !self._aps.lodParametersPresent || !aps.lodParametersPresent then true
  else if self._aps.num_pred_nearest_neighbours_minus1
      != aps.num_pred_nearest_neighbours_minus1 then false
  else if self._aps.search_range != aps.search_range then false
  else if self._aps.num_detail_levels != aps.num_detail_levels then false
  else if self._aps.lodNeighBias != aps.lodNeighBias then false
  else if self._aps.lod_decimation_enabled_flag
      != aps.lod_decimation_enabled_flag then false
  else if self._aps.dist2 != aps.dist2 then false
  else if self._aps.lodSamplingPeriod != aps.lodSamplingPeriod then false
  else if self._aps.intra_lod_prediction_enabled_flag
      != aps.intra_lod_prediction_enabled_flag then false
  else if self._aps.canonical_point_order_flag
      != aps.canonical_point_order_flag then false
  else if self._aps.scalable_lifting_enabled_flag
      || aps.scalable_lifting_enabled_flag then false
  else true

/-- The nine members that `isReusable` compares between the two sets. -/
inductive ComparedField where
  | numPredNearestNeighbours
  | searchRange
  | numDetailLevels
  | lodNeighBias
  | lodDecimationEnabled
  | dist2
  | lodSamplingPeriod
  | intraLodPredictionEnabled
  | canonicalPointOrder
  deriving DecidableEq, Repr, Fintype

/-- Whether two parameter sets differ in the given compared member. -/
def ComparedField.differs (f : ComparedField)
    (a b : AttributeParameterSet Bias Dist Period) : Bool :=
  match f with
  | .numPredNearestNeighbours =>
    a.num_pred_nearest_neighbours_minus1 != b.num_pred_nearest_neighbours_minus1
  | .searchRange => a.search_range != b.search_range
  | .numDetailLevels => a.num_detail_levels != b.num_detail_levels
  | .lodNeighBias => a.lodNeighBias != b.lodNeighBias
  | .lodDecimationEnabled =>
    a.lod_decimation_enabled_flag != b.lod_decimation_enabled_flag
  | .dist2 => a.dist2 != b.dist2
  | .lodSamplingPeriod => a.lodSamplingPeriod != b.lodSamplingPeriod
  | .intraLodPredictionEnabled =>
    a.intra_lod_prediction_enabled_flag != b.intra_lod_prediction_enabled_flag
  | .canonicalPointOrder =>
    a.canonical_point_order_flag != b.canonical_point_order_flag

end Reuse

/-! ## Sample values -/

/-- A concrete parameter set type: three-component bias, one `dist2` value,
a list of sampling periods. -/
abbrev Aps := AttributeParameterSet (Int × Int × Int) Int (List Int)

/-- A concrete builder state type, with predictors left uninterpreted. -/
abbrev Lods := AttributeLods (Int × Int × Int) Int (List Int) Unit

/-- A fully specified parameter set with LoD parameters, search range 8 and
scalable lifting disabled. -/
def apsPlain : Aps :=
  ⟨true, 2, 8, 3, (1, 1, 1), false, true, 4, [4, 4, 4], true, false⟩

/-- The set `apsPlain` with search range 16 instead of 8. -/
def apsWide : Aps :=
  ⟨true, 2, 16, 3, (1, 1, 1), false, true, 4, [4, 4, 4], true, false⟩

/-- The set `apsPlain` with scalable lifting enabled. -/
def apsScalable : Aps :=
  ⟨true, 2, 8, 3, (1, 1, 1), true, true, 4, [4, 4, 4], true, false⟩

/-- The set `apsScalable` without LoD parameters. -/
def apsFlat : Aps :=
  ⟨false, 2, 8, 3, (1, 1, 1), true, true, 4, [4, 4, 4], true, false⟩

/-- A builder state holding three levels of detail over five points. -/
def lodsOf (a : Aps) : Lods := ⟨a, [(), (), (), (), ()], [1, 3, 5], [4, 2, 0, 1, 3]⟩

/-- A builder state holding no structure. -/
def lodsEmpty (a : Aps) : Lods := ⟨a, [], [], []⟩

/-! ## AttributeLods::generate -/

/-- The collaborators that `generate` calls and whose code lies outside this
file, taken as parameters. `getPointCount` is `cloud.getPointCount()`.
`buildPredictorsFast` receives the four inputs and the three members it
fills in (`predictors`, `numPointsInLod`, `indexes`, passed by reference, so
their previous contents are within its reach) and yields their new contents.
`computeWeights` is the effect of `predictor.computeWeights()` on one
predictor. -/
structure Collaborators (Bias Dist Period Pred Cloud : Type) where
  getPointCount : Cloud → Nat
  buildPredictorsFast : AttributeParameterSet Bias Dist Period → Cloud → Int → Int →
    List Pred → List Nat → List Nat → List Pred × List Nat × List Nat
  computeWeights : Pred → Pred

/-- How a call of `generate` ends, with the builder state at that point:
it returns, or one of its two `assert`s fails (assertions are taken as
enabled, a failure being fatal). -/
inductive Outcome (σ : Type) where
  | returned (st : σ)
  | assertScalableLifting (st : σ)
  | assertPredictorCount (st : σ)

/-- The builder state an outcome carries. -/
def Outcome.state {σ : Type} : Outcome σ → σ
  | .returned st => st
  | .assertScalableLifting st => st
  | .assertPredictorCount st => st

section Generate

variable {Bias Dist Period Pred Cloud : Type}

/-- The method `AttributeLods::generate(aps, geom_num_points_minus1,
minGeomNodeSizeLog2, cloud)`, statement by statement. -/
def AttributeLods.generate (ext : Collaborators Bias Dist Period Pred Cloud)
    (self : AttributeLods Bias Dist Period Pred)
    (aps : AttributeParameterSet Bias Dist Period)
    (geom_num_points_minus1 : Int) (minGeomNodeSizeLog2 : Int) (cloud : Cloud) :
    Outcome (AttributeLods Bias Dist Period Pred) :=
  -- _aps = aps;
  let s1 : AttributeLods Bias Dist Period Pred :=
    ⟨aps, self.predictors, self.numPointsInLod, self.indexes⟩
  -- if (minGeomNodeSizeLog2 > 0) assert(aps.scalable_lifting_enabled_flag);
  if minGeomNodeSizeLog2 > 0 ∧ aps.scalable_lifting_enabled_flag = false then
    .assertScalableLifting s1
  else
    -- buildPredictorsFast(aps, cloud, ..., predictors, numPointsInLod, indexes);
    let built := ext.buildPredictorsFast aps cloud minGeomNodeSizeLog2
      geom_num_points_minus1 s1.predictors s1.numPointsInLod s1.indexes
    let s2 : AttributeLods Bias Dist Period Pred :=
      ⟨s1._aps, built.1, built.2.1, built.2.2⟩
    -- assert(predictors.size() == cloud.getPointCount());
    if s2.predictors.length ≠ ext.getPointCount cloud then
      .assertPredictorCount s2
    else
      -- for (auto& predictor : predictors) predictor.computeWeights();
      .returned ⟨s2._aps, s2.predictors.map ext.computeWeights, s2.numPointsInLod,
        s2.indexes⟩

/-- The parameter set `a` with `dist2` and `lodSamplingPeriod` replaced and
every other member kept. -/
def AttributeParameterSet.withDist2AndPeriod (a : AttributeParameterSet Bias Dist Period)
    (d : Dist) (p : Period) : AttributeParameterSet Bias Dist Period :=
  ⟨a.lodParametersPresent, a.num_pred_nearest_neighbours_minus1, a.search_range,
    a.num_detail_levels, a.lodNeighBias, a.scalable_lifting_enabled_flag,
    a.lod_decimation_enabled_flag, d, p, a.intra_lod_prediction_enabled_flag,
    a.canonical_point_order_flag⟩

/-- A collaborator whose `buildPredictorsFast` result does not depend on the
previous contents of the three members it fills in: it is a function of
`(aps, cloud, minGeomNodeSizeLog2, geom_num_points_minus1)` alone. -/
def Collaborators.IgnoresPrevious (ext : Collaborators Bias Dist Period Pred Cloud) : Prop :=
  ∀ aps cloud (m n : Int) (p1 p2 : List Pred) (l1 l2 i1 i2 : List Nat),
    ext.buildPredictorsFast aps cloud m n p1 l1 i1
      = ext.buildPredictorsFast aps cloud m n p2 l2 i2

end Generate

/-! ## Sample values for generate -/

/-- A sample predictor: a neighbour index and a weight. -/
abbrev SamplePredictor := Nat × Nat

/-- A sample cloud: the list of its point positions. -/
abbrev SampleCloud := List (Int × Int × Int)

/-- A builder state type over sample predictors. -/
abbrev SampleLods := AttributeLods (Int × Int × Int) Int (List Int) SamplePredictor

/-- Sample collaborators: one predictor per point with weight zero, a single
level of detail holding all points, the identity ordering; weight computation
sets the weight to the neighbour index plus one. -/
def sampleExt : Collaborators (Int × Int × Int) Int (List Int) SamplePredictor SampleCloud where
  getPointCount := fun cloud => cloud.length
  buildPredictorsFast := fun _ cloud _ _ _ _ _ =>
    ((List.range cloud.length).map (fun i => (i, 0)), [cloud.length], List.range cloud.length)
  computeWeights := fun pr => (pr.1, pr.1 + 1)

/-- A sample cloud of three points. -/
def sampleCloud : SampleCloud := [(0, 0, 0), (1, 0, 0), (0, 2, 1)]

/-- A builder state left by an earlier build for `apsPlain` over two points. -/
def sampleLods : SampleLods := ⟨apsPlain, [(0, 7), (0, 9)], [1, 2], [1, 0]⟩

/-- A builder state that has never built anything. -/
def sampleLodsFresh : SampleLods := ⟨apsWide, [], [], []⟩

/-- The set `apsPlain` with decimation disabled. -/
def apsNoDecimation : Aps :=
  ⟨true, 2, 8, 3, (1, 1, 1), false, false, 4, [4, 4, 4], true, false⟩

/-! ## Properties of the coefficient interval tables -/

section Tables

set_option maxRecDepth 100000

theorem floorLog2Aux_eq_log (fuel n : Nat) (h : n ≤ fuel) :
    floorLog2Aux fuel n = Nat.log 2 n := by
  induction fuel generalizing n with
  | zero =>
    have hn : n = 0 := by omega
    subst hn
    simp [floorLog2Aux]
  | succ k ih =>
    unfold floorLog2Aux
    split
    · rename_i h2
      exact (Nat.log_of_lt h2).symm
    · rename_i h2
      have hlog := Nat.log_of_one_lt_of_le (show 1 < 2 by decide) (show 2 ≤ n by omega)
      rw [ih (n / 2) (by omega), hlog]

/-- The halving count `floorLog2` is the floor of the base-two logarithm. -/
theorem floorLog2_eq_log (n : Nat) : floorLog2 n = Nat.log 2 n :=
  floorLog2Aux_eq_log n n (Nat.le_refl n)

/-- The shift form of the generating rule is the closed form with floor
division and the floor of the base-two logarithm. -/
theorem MagnGroup_closed_form (m : Nat) :
    MagnGroup m =
      if m < 2 then m
      else 2 * Nat.log 2 m + (m - 2 ^ Nat.log 2 m) / 2 ^ (Nat.log 2 m - 1) := by
  unfold MagnGroup
  simp only [floorLog2_eq_log, Nat.shiftRight_eq_div_pow, Nat.shiftLeft_eq, Nat.one_mul]

theorem classify_eq_MagnGroup_of_lt :
    ∀ m, m < 256 → classify m = some (MagnGroup m) := by
  decide

theorem classify_eq_getD (m : Nat) (h : m < 256) :
    classify m = some (kCoeffToIntervalIdx.getD m 0) := by
  have hl : m < kCoeffToIntervalIdx.length := h
  simp [classify, List.getD, List.getElem?_eq_getElem hl]

theorem intervalStart_eq_getD (b : Nat) (h : b < 17) :
    intervalStart b = some (kCoeffIntervalStart.getD b 0) := by
  have hl : b < kCoeffIntervalStart.length := h
  simp [intervalStart, List.getD, List.getElem?_eq_getElem hl]

theorem table_bucket_iff_getD :
    ∀ m, m < 256 → ∀ b, b < 16 →
      (kCoeffToIntervalIdx.getD m 0 = b ↔
        kCoeffIntervalStart.getD b 0 ≤ m ∧ m < kCoeffIntervalStart.getD (b + 1) 0) := by
  decide

theorem table_lt_sixteen_getD :
    ∀ m, m < 256 → kCoeffToIntervalIdx.getD m 0 < 16 := by
  decide

theorem table_step_getD :
    ∀ m, m < 255 → kCoeffToIntervalIdx.getD m 0 ≤ kCoeffToIntervalIdx.getD (m + 1) 0 := by
  decide

theorem table_mono_getD (m1 m2 : Nat) (h12 : m1 ≤ m2) (h2 : m2 < 256) :
    kCoeffToIntervalIdx.getD m1 0 ≤ kCoeffToIntervalIdx.getD m2 0 := by
  induction m2, h12 using Nat.le_induction with
  | base => exact Nat.le_refl _
  | succ k hk ih =>
    exact Nat.le_trans (ih (by omega)) (table_step_getD k (by omega))

/-- C1: for every magnitude `m` with `0 ≤ m ≤ 255` the table entry
`kCoeffToIntervalIdx[m]` exists and equals the generating rule, which is `m`
when `m < 2` and `2*t + ((m - 2^t) >> (t-1))` with `t = floor(log2(m))`
otherwise. -/
theorem kCoeffToIntervalIdx_eq_closed_form (m : Nat) (hm : m ≤ 255) :
    classify m = some (MagnGroup m) ∧
    MagnGroup m =
      (if m < 2 then m
       else 2 * Nat.log 2 m + ((m - 2 ^ Nat.log 2 m) >>> (Nat.log 2 m - 1))) ∧
    MagnGroup m =
      (if m < 2 then m
       else 2 * Nat.log 2 m + (m - 2 ^ Nat.log 2 m) / 2 ^ (Nat.log 2 m - 1)) := by
  refine ⟨classify_eq_MagnGroup_of_lt m (by omega), ?_, MagnGroup_closed_form m⟩
  rw [MagnGroup_closed_form m]
  simp only [Nat.shiftRight_eq_div_pow]

/-- Witness for C1 at magnitude 5. -/
theorem kCoeffToIntervalIdx_eq_closed_form_witness :
    (5 : Nat) ≤ 255 ∧
    (classify 5 = some (MagnGroup 5) ∧
     MagnGroup 5 =
      (if 5 < 2 then 5
       else 2 * Nat.log 2 5 + ((5 - 2 ^ Nat.log 2 5) >>> (Nat.log 2 5 - 1))) ∧
     MagnGroup 5 =
      (if 5 < 2 then 5
       else 2 * Nat.log 2 5 + (5 - 2 ^ Nat.log 2 5) / 2 ^ (Nat.log 2 5 - 1))) :=
  ⟨by decide, kCoeffToIntervalIdx_eq_closed_form 5 (by decide)⟩

/-- C2: the two tables describe the same 16 buckets. For `m ≤ 255` and
`b ≤ 15`, `kCoeffToIntervalIdx[m] = b` exactly when
`kCoeffIntervalStart[b] ≤ m < kCoeffIntervalStart[b+1]`; the start of bucket
`b` is the smallest magnitude classified into `b`, so every bucket is used;
and every entry is at most 15. -/
theorem tables_describe_same_buckets :
    (∀ m b, m ≤ 255 → b ≤ 15 →
      (classify m = some b ↔
        ∃ lo hi, intervalStart b = some lo ∧ intervalStart (b + 1) = some hi ∧
          lo ≤ m ∧ m < hi)) ∧
    (∀ b, b ≤ 15 →
      ∃ lo, intervalStart b = some lo ∧ lo ≤ 255 ∧ classify lo = some b ∧
        ∀ m, m < lo → classify m ≠ some b) ∧
    (∀ m, m ≤ 255 → ∃ b, b ≤ 15 ∧ classify m = some b) := by
  have key : ∀ m b, m ≤ 255 → b ≤ 15 →
      (classify m = some b ↔
        ∃ lo hi, intervalStart b = some lo ∧ intervalStart (b + 1) = some hi ∧
          lo ≤ m ∧ m < hi) := by
    intro m b hm hb
    rw [classify_eq_getD m (by omega), intervalStart_eq_getD b (by omega),
      intervalStart_eq_getD (b + 1) (by omega)]
    constructor
    · intro h
      have h1 := (table_bucket_iff_getD m (by omega) b (by omega)).mp (Option.some.inj h)
      exact ⟨_, _, rfl, rfl, h1.1, h1.2⟩
    · rintro ⟨lo, hi, hlo, hhi, h1, h2⟩
      cases Option.some.inj hlo
      cases Option.some.inj hhi
      exact congrArg some ((table_bucket_iff_getD m (by omega) b (by omega)).mpr ⟨h1, h2⟩)
  refine ⟨key, ?_, ?_⟩
  · intro b hb
    have hlt : kCoeffIntervalStart.getD b 0 < kCoeffIntervalStart.getD (b + 1) 0 ∧
        kCoeffIntervalStart.getD b 0 ≤ 255 := by
      interval_cases b <;> decide
    refine ⟨kCoeffIntervalStart.getD b 0, intervalStart_eq_getD b (by omega), hlt.2, ?_, ?_⟩
    · exact (key _ b hlt.2 hb).mpr
        ⟨_, _, intervalStart_eq_getD b (by omega), intervalStart_eq_getD (b + 1) (by omega),
          Nat.le_refl _, hlt.1⟩
    · intro m hm hc
      obtain ⟨lo, hi, hlo, -, h1, -⟩ := (key m b (by omega) hb).mp hc
      rw [intervalStart_eq_getD b (by omega)] at hlo
      cases Option.some.inj hlo
      omega
  · intro m hm
    exact ⟨_, Nat.le_of_lt_succ (table_lt_sixteen_getD m (by omega)),
      classify_eq_getD m (by omega)⟩

/-- C3: the classifier is monotonic non-decreasing on the tabulated range:
for `m1 ≤ m2 ≤ 255` both entries exist and
`kCoeffToIntervalIdx[m1] ≤ kCoeffToIntervalIdx[m2]`. -/
theorem classify_monotone (m1 m2 : Nat) (h12 : m1 ≤ m2) (h2 : m2 ≤ 255) :
    ∃ b1 b2, classify m1 = some b1 ∧ classify m2 = some b2 ∧ b1 ≤ b2 :=
  ⟨_, _, classify_eq_getD m1 (by omega), classify_eq_getD m2 (by omega),
    table_mono_getD m1 m2 h12 (by omega)⟩

/-- Witness for C3 at magnitudes 5 and 17. -/
theorem classify_monotone_witness :
    (5 : Nat) ≤ 17 ∧ (17 : Nat) ≤ 255 ∧
      ∃ b1 b2, classify 5 = some b1 ∧ classify 17 = some b2 ∧ b1 ≤ b2 :=
  ⟨by decide, by decide, classify_monotone 5 17 (by decide) (by decide)⟩

/-- C4: the classifier takes the documented values: magnitudes 0, 1, 2, 5, 17
and 255 are classified into buckets 0, 1, 2, 4, 8 and 15. -/
theorem classify_documented_values :
    classify 0 = some 0 ∧ classify 1 = some 1 ∧ classify 2 = some 2 ∧
    classify 5 = some 4 ∧ classify 17 = some 8 ∧ classify 255 = some 15 := by
  decide

end Tables

/-! ## Properties of the reuse query -/

section ReuseProps

variable {Bias Dist Period Pred : Type}
variable [DecidableEq Bias] [DecidableEq Dist] [DecidableEq Period]

/-- The chain of early returns of `isReusable` as one Boolean expression. -/
theorem isReusable_eq_bool (st : AttributeLods Bias Dist Period Pred)
    (aps : AttributeParameterSet Bias Dist Period) :
    st.isReusable aps =
      (st.numPointsInLod.isEmpty ||
        (!(st._aps.lodParametersPresent && aps.lodParametersPresent) ||
         (!(st._aps.num_pred_nearest_neighbours_minus1
              != aps.num_pred_nearest_neighbours_minus1) &&
          (!(st._aps.search_range != aps.search_range) &&
          (!(st._aps.num_detail_levels != aps.num_detail_levels) &&
          (!(st._aps.lodNeighBias != aps.lodNeighBias) &&
          (!(st._aps.scalable_lifting_enabled_flag
              || aps.scalable_lifting_enabled_flag) &&
          (!(st._aps.lod_decimation_enabled_flag
              != aps.lod_decimation_enabled_flag) &&
          (!(st._aps.dist2 != aps.dist2) &&
          (!(st._aps.lodSamplingPeriod != aps.lodSamplingPeriod) &&
          (!(st._aps.intra_lod_prediction_enabled_flag
              != aps.intra_lod_prediction_enabled_flag) &&
          !(st._aps.canonical_point_order_flag
              != aps.canonical_point_order_flag)))))))))))) := by
  unfold AttributeLods.isReusable
  simp only [Bool.if_true_left, Bool.if_false_left, Bool.decide_eq_true, Bool.and_true,
    Bool.or_false]


/-- The value of `isReusable` as one condition over the builder state and the
candidate parameter set. -/
theorem isReusable_eq_true_iff (st : AttributeLods Bias Dist Period Pred)
    (aps : AttributeParameterSet Bias Dist Period) :
    st.isReusable aps = true ↔
      (st.numPointsInLod = [] ∨ st._aps.lodParametersPresent = false ∨
        aps.lodParametersPresent = false ∨
        ((st._aps.num_pred_nearest_neighbours_minus1
            = aps.num_pred_nearest_neighbours_minus1 ∧
          st._aps.search_range = aps.search_range ∧
          st._aps.num_detail_levels = aps.num_detail_levels ∧
          st._aps.lodNeighBias = aps.lodNeighBias ∧
          st._aps.lod_decimation_enabled_flag = aps.lod_decimation_enabled_flag ∧
          st._aps.dist2 = aps.dist2 ∧
          st._aps.lodSamplingPeriod = aps.lodSamplingPeriod ∧
          st._aps.intra_lod_prediction_enabled_flag
            = aps.intra_lod_prediction_enabled_flag ∧
          st._aps.canonical_point_order_flag = aps.canonical_point_order_flag) ∧
         st._aps.scalable_lifting_enabled_flag = false ∧
         aps.scalable_lifting_enabled_flag = false)) := by
  rw [isReusable_eq_bool]
  simp only [Bool.or_eq_true, Bool.and_eq_true, Bool.not_eq_true', bne_eq_false_iff_eq,
    Bool.and_eq_false_iff, Bool.or_eq_false_iff, List.isEmpty_iff]
  tauto

/-- The source order of the checks and the order of the written policy give
the same answer. -/
theorem isReusable_eq_policy (st : AttributeLods Bias Dist Period Pred)
    (aps : AttributeParameterSet Bias Dist Period) :
    st.isReusable aps = isReusablePolicy st aps := by
  rw [isReusable_eq_bool]
  unfold isReusablePolicy
  simp only [Bool.if_true_left, Bool.if_false_left, Bool.decide_eq_true, Bool.and_true,
    Bool.or_false, Bool.not_and]
  generalize st.numPointsInLod.isEmpty = c0
  generalize (!st._aps.lodParametersPresent || !aps.lodParametersPresent) = c1
  generalize (st._aps.num_pred_nearest_neighbours_minus1
    != aps.num_pred_nearest_neighbours_minus1) = c2
  generalize (st._aps.search_range != aps.search_range) = c3
  generalize (st._aps.num_detail_levels != aps.num_detail_levels) = c4
  generalize (st._aps.lodNeighBias != aps.lodNeighBias) = c5
  generalize (st._aps.scalable_lifting_enabled_flag || aps.scalable_lifting_enabled_flag) = c6
  generalize (st._aps.lod_decimation_enabled_flag != aps.lod_decimation_enabled_flag) = c7
  generalize (st._aps.dist2 != aps.dist2) = c8
  generalize (st._aps.lodSamplingPeriod != aps.lodSamplingPeriod) = c9
  generalize (st._aps.intra_lod_prediction_enabled_flag
    != aps.intra_lod_prediction_enabled_flag) = c10
  generalize (st._aps.canonical_point_order_flag != aps.canonical_point_order_flag) = c11
  cases c6 <;> cases c7 <;> cases c8 <;> cases c9 <;> cases c10 <;> cases c11 <;> simp

/-- C5: `isReusable` computes the ordered policy of the specification. It is
true exactly when the level counts are empty, or the stored snapshot or the
new set lacks LoD parameters, or the nine compared fields all agree and
neither set enables scalable lifting; and testing scalable lifting between
the neighbour-bias and decimation-flag comparisons, as the source does, gives
the same result as testing it after all field comparisons. -/
theorem isReusable_computes_policy (st : AttributeLods Bias Dist Period Pred)
    (aps : AttributeParameterSet Bias Dist Period) :
    (st.isReusable aps = true ↔
      (st.numPointsInLod = [] ∨ st._aps.lodParametersPresent = false ∨
        aps.lodParametersPresent = false ∨
        ((st._aps.num_pred_nearest_neighbours_minus1
            = aps.num_pred_nearest_neighbours_minus1 ∧
          st._aps.search_range = aps.search_range ∧
          st._aps.num_detail_levels = aps.num_detail_levels ∧
          st._aps.lodNeighBias = aps.lodNeighBias ∧
          st._aps.lod_decimation_enabled_flag = aps.lod_decimation_enabled_flag ∧
          st._aps.dist2 = aps.dist2 ∧
          st._aps.lodSamplingPeriod = aps.lodSamplingPeriod ∧
          st._aps.intra_lod_prediction_enabled_flag
            = aps.intra_lod_prediction_enabled_flag ∧
          st._aps.canonical_point_order_flag = aps.canonical_point_order_flag) ∧
         st._aps.scalable_lifting_enabled_flag = false ∧
         aps.scalable_lifting_enabled_flag = false))) ∧
    st.isReusable aps = isReusablePolicy st aps :=
  ⟨isReusable_eq_true_iff st aps, isReusable_eq_policy st aps⟩

/-- C6: if the stored snapshot or the new parameter set has no LoD
parameters, `isReusable` returns true whatever the other fields hold. -/
theorem isReusable_of_no_lod_parameters (st : AttributeLods Bias Dist Period Pred)
    (aps : AttributeParameterSet Bias Dist Period)
    (h : st._aps.lodParametersPresent = false ∨ aps.lodParametersPresent = false) :
    st.isReusable aps = true :=
  (isReusable_eq_true_iff st aps).mpr (Or.inr (h.elim Or.inl (fun h2 => Or.inr (Or.inl h2))))

/-- C7, as stated, fails: with scalable lifting enabled on both sides,
`isReusable` still returns true for a builder that holds no structure, and
for one whose snapshot has no LoD parameters. -/
theorem isReusable_scalable_not_always_false :
    ((lodsEmpty apsScalable)._aps.scalable_lifting_enabled_flag = true ∨
        apsScalable.scalable_lifting_enabled_flag = true) ∧
      (lodsEmpty apsScalable).isReusable apsScalable = true ∧
    ((lodsOf apsFlat)._aps.scalable_lifting_enabled_flag = true ∨
        apsScalable.scalable_lifting_enabled_flag = true) ∧
      (lodsOf apsFlat).isReusable apsScalable = true := by
  decide

/-- C7, amended: when the builder holds a structure and both the stored
snapshot and the new parameter set have LoD parameters, `isReusable` returns
false as soon as either set enables scalable lifting, even when all other
fields are equal. -/
theorem isReusable_false_of_scalable (st : AttributeLods Bias Dist Period Pred)
    (aps : AttributeParameterSet Bias Dist Period)
    (hL : st.numPointsInLod ≠ [])
    (h1 : st._aps.lodParametersPresent = true) (h2 : aps.lodParametersPresent = true)
    (hs : st._aps.scalable_lifting_enabled_flag = true ∨
      aps.scalable_lifting_enabled_flag = true) :
    st.isReusable aps = false := by
  cases hr : st.isReusable aps with
  | false => rfl
  | true =>
    rcases (isReusable_eq_true_iff st aps).mp hr with h | h | h | ⟨-, hs1, hs2⟩
    · exact absurd h hL
    · rw [h1] at h; cases h
    · rw [h2] at h; cases h
    · rcases hs with hs | hs
      · rw [hs1] at hs; cases hs
      · rw [hs2] at hs; cases hs

/-- C8: a builder whose stored snapshot is `A` answers `isReusable(A)` with
true when `A` has scalable lifting disabled, whatever its level counts. -/
theorem isReusable_self (A : AttributeParameterSet Bias Dist Period)
    (st : AttributeLods Bias Dist Period Pred)
    (hA : A.scalable_lifting_enabled_flag = false) (hst : st._aps = A) :
    st.isReusable A = true := by
  subst hst
  exact (isReusable_eq_true_iff st st._aps).mpr
    (Or.inr (Or.inr (Or.inr ⟨⟨rfl, rfl, rfl, rfl, rfl, rfl, rfl, rfl, rfl⟩, hA, hA⟩)))

/-- C9: when the builder holds a structure and both sets have LoD parameters,
two sets that differ in exactly one compared field `f` and agree on the
other eight make `isReusable` return false; `f` ranges over all nine
compared fields. -/
theorem isReusable_false_of_one_field_differs (st : AttributeLods Bias Dist Period Pred)
    (aps : AttributeParameterSet Bias Dist Period)
    (hL : st.numPointsInLod ≠ [])
    (h1 : st._aps.lodParametersPresent = true) (h2 : aps.lodParametersPresent = true)
    (f : ComparedField) (hd : f.differs st._aps aps = true)
    (hs : ∀ g : ComparedField, g ≠ f → g.differs st._aps aps = false) :
    st.isReusable aps = false := by
  cases hr : st.isReusable aps with
  | false => rfl
  | true =>
    rcases (isReusable_eq_true_iff st aps).mp hr with h | h | h | ⟨he, -, -⟩
    · exact absurd h hL
    · rw [h1] at h; cases h
    · rw [h2] at h; cases h
    · obtain ⟨e1, e2, e3, e4, e5, e6, e7, e8, e9⟩ := he
      cases f <;> simp [ComparedField.differs, e1, e2, e3, e4, e5, e6, e7, e8, e9] at hd

/-- C10: a builder that holds no structure (empty level counts) answers
`isReusable` with true for every new parameter set and stored snapshot. -/
theorem isReusable_of_no_structure (st : AttributeLods Bias Dist Period Pred)
    (aps : AttributeParameterSet Bias Dist Period)
    (h : st.numPointsInLod = []) :
    st.isReusable aps = true :=
  (isReusable_eq_true_iff st aps).mpr (Or.inl h)

end ReuseProps

/-- Witness for C6: a snapshot without LoD parameters, over a held structure,
against a set that enables scalable lifting. -/
theorem isReusable_of_no_lod_parameters_witness :
    ((lodsOf apsFlat)._aps.lodParametersPresent = false ∨
        apsScalable.lodParametersPresent = false) ∧
      (lodsOf apsFlat).isReusable apsScalable = true :=
  ⟨by decide, isReusable_of_no_lod_parameters (lodsOf apsFlat) apsScalable (Or.inl rfl)⟩

/-- Witness for amended C7: the sets `apsPlain` and `apsScalable` agree on
every compared field. -/
theorem isReusable_false_of_scalable_witness :
    (lodsOf apsPlain).numPointsInLod ≠ [] ∧
      (lodsOf apsPlain)._aps.lodParametersPresent = true ∧
      apsScalable.lodParametersPresent = true ∧
      ((lodsOf apsPlain)._aps.scalable_lifting_enabled_flag = true ∨
        apsScalable.scalable_lifting_enabled_flag = true) ∧
      (lodsOf apsPlain).isReusable apsScalable = false :=
  ⟨by decide, rfl, rfl, Or.inr rfl,
    isReusable_false_of_scalable (lodsOf apsPlain) apsScalable (by decide) rfl rfl (Or.inr rfl)⟩

/-- Witness for C8 at `apsPlain` over a held structure. -/
theorem isReusable_self_witness :
    apsPlain.scalable_lifting_enabled_flag = false ∧ (lodsOf apsPlain)._aps = apsPlain ∧
      (lodsOf apsPlain).isReusable apsPlain = true :=
  ⟨rfl, rfl, isReusable_self apsPlain (lodsOf apsPlain) rfl rfl⟩

/-- Witness for C9: two sets differing only in the search range, 8 against
16. -/
theorem isReusable_false_of_one_field_differs_witness :
    (lodsOf apsPlain).numPointsInLod ≠ [] ∧
      (lodsOf apsPlain)._aps.lodParametersPresent = true ∧
      apsWide.lodParametersPresent = true ∧
      (lodsOf apsPlain)._aps.search_range = 8 ∧ apsWide.search_range = 16 ∧
      ComparedField.searchRange.differs (lodsOf apsPlain)._aps apsWide = true ∧
      (∀ g : ComparedField, g ≠ ComparedField.searchRange →
        g.differs (lodsOf apsPlain)._aps apsWide = false) ∧
      (lodsOf apsPlain).isReusable apsWide = false :=
  ⟨by decide, rfl, rfl, rfl, rfl, by decide, by decide,
    isReusable_false_of_one_field_differs (lodsOf apsPlain) apsWide (by decide) rfl rfl
      ComparedField.searchRange (by decide) (by decide)⟩

/-- Witness for C10: an empty builder against a different parameter set. -/
theorem isReusable_of_no_structure_witness :
    (lodsEmpty apsScalable).numPointsInLod = [] ∧
      (lodsEmpty apsScalable).isReusable apsWide = true :=
  ⟨rfl, isReusable_of_no_structure (lodsEmpty apsScalable) apsWide rfl⟩

/-! ## Properties of generate -/

section GenerateProps

variable {Bias Dist Period Pred Cloud : Type}

/-- The outcome of `generate` when the scalable-lifting assertion fails: the
snapshot is already stored, the other members are untouched. -/
theorem generate_of_assert_fails (ext : Collaborators Bias Dist Period Pred Cloud)
    (st : AttributeLods Bias Dist Period Pred) (aps : AttributeParameterSet Bias Dist Period)
    (n m : Int) (cloud : Cloud)
    (hm : m > 0) (hs : aps.scalable_lifting_enabled_flag = false) :
    st.generate ext aps n m cloud
      = .assertScalableLifting ⟨aps, st.predictors, st.numPointsInLod, st.indexes⟩ := by
  unfold AttributeLods.generate
  simp only [hm, hs, and_self, if_true]

/-- The outcome of `generate` when the scalable-lifting assertion holds. -/
theorem generate_of_assert_holds (ext : Collaborators Bias Dist Period Pred Cloud)
    (st : AttributeLods Bias Dist Period Pred) (aps : AttributeParameterSet Bias Dist Period)
    (n m : Int) (cloud : Cloud)
    (h : m ≤ 0 ∨ aps.scalable_lifting_enabled_flag = true) :
    st.generate ext aps n m cloud =
      if (ext.buildPredictorsFast aps cloud m n st.predictors st.numPointsInLod
          st.indexes).1.length ≠ ext.getPointCount cloud then
        .assertPredictorCount
          ⟨aps,
           (ext.buildPredictorsFast aps cloud m n st.predictors st.numPointsInLod
              st.indexes).1,
           (ext.buildPredictorsFast aps cloud m n st.predictors st.numPointsInLod
              st.indexes).2.1,
           (ext.buildPredictorsFast aps cloud m n st.predictors st.numPointsInLod
              st.indexes).2.2⟩
      else
        .returned
          ⟨aps,
           (ext.buildPredictorsFast aps cloud m n st.predictors st.numPointsInLod
              st.indexes).1.map ext.computeWeights,
           (ext.buildPredictorsFast aps cloud m n st.predictors st.numPointsInLod
              st.indexes).2.1,
           (ext.buildPredictorsFast aps cloud m n st.predictors st.numPointsInLod
              st.indexes).2.2⟩ := by
  unfold AttributeLods.generate
  have hc : ¬ (m > 0 ∧ aps.scalable_lifting_enabled_flag = false) := by
    rintro ⟨h1, h2⟩
    rcases h with h | h
    · omega
    · rw [h2] at h; cases h
  simp only [hc, if_false]

/-- What a returning call of `generate` leaves behind. -/
theorem generate_returned_state (ext : Collaborators Bias Dist Period Pred Cloud)
    (st st2 : AttributeLods Bias Dist Period Pred)
    (aps : AttributeParameterSet Bias Dist Period) (n m : Int) (cloud : Cloud)
    (h : st.generate ext aps n m cloud = .returned st2) :
    (m ≤ 0 ∨ aps.scalable_lifting_enabled_flag = true) ∧
    (ext.buildPredictorsFast aps cloud m n st.predictors st.numPointsInLod
        st.indexes).1.length = ext.getPointCount cloud ∧
    st2 = ⟨aps,
      (ext.buildPredictorsFast aps cloud m n st.predictors st.numPointsInLod
        st.indexes).1.map ext.computeWeights,
      (ext.buildPredictorsFast aps cloud m n st.predictors st.numPointsInLod
        st.indexes).2.1,
      (ext.buildPredictorsFast aps cloud m n st.predictors st.numPointsInLod
        st.indexes).2.2⟩ := by
  by_cases hc : m > 0 ∧ aps.scalable_lifting_enabled_flag = false
  · rw [generate_of_assert_fails ext st aps n m cloud hc.1 hc.2] at h
    cases h
  · have hp : m ≤ 0 ∨ aps.scalable_lifting_enabled_flag = true := by
      by_cases hm : m > 0
      · right
        cases hs : aps.scalable_lifting_enabled_flag
        · exact absurd ⟨hm, hs⟩ hc
        · rfl
      · left; omega
    rw [generate_of_assert_holds ext st aps n m cloud hp] at h
    split at h
    · cases h
    · rename_i hl
      refine ⟨hp, not_not.mp hl, ?_⟩
      cases h
      rfl

/-- C11: `generate` fails its scalable-lifting assertion exactly when
`minGeomNodeSizeLog2 > 0` and scalable lifting is disabled; and when
`minGeomNodeSizeLog2 ≤ 0` or scalable lifting is enabled, and the external
builder yields one predictor per cloud point, `generate` returns. -/
theorem generate_faults_iff_precondition_violated
    (ext : Collaborators Bias Dist Period Pred Cloud)
    (st : AttributeLods Bias Dist Period Pred) (aps : AttributeParameterSet Bias Dist Period)
    (n m : Int) (cloud : Cloud) :
    ((∃ s, st.generate ext aps n m cloud = .assertScalableLifting s) ↔
      (m > 0 ∧ aps.scalable_lifting_enabled_flag = false)) ∧
    ((m ≤ 0 ∨ aps.scalable_lifting_enabled_flag = true) →
      (ext.buildPredictorsFast aps cloud m n st.predictors st.numPointsInLod
        st.indexes).1.length = ext.getPointCount cloud →
      ∃ s, st.generate ext aps n m cloud = .returned s) := by
  constructor
  · constructor
    · rintro ⟨s, hs⟩
      by_cases hc : m > 0 ∧ aps.scalable_lifting_enabled_flag = false
      · exact hc
      · have hp : m ≤ 0 ∨ aps.scalable_lifting_enabled_flag = true := by
          by_cases hm : m > 0
          · right
            cases hf : aps.scalable_lifting_enabled_flag
            · exact absurd ⟨hm, hf⟩ hc
            · rfl
          · left; omega
        rw [generate_of_assert_holds ext st aps n m cloud hp] at hs
        split at hs <;> cases hs
    · rintro ⟨hm, hf⟩
      exact ⟨_, generate_of_assert_fails ext st aps n m cloud hm hf⟩
  · intro hp hlen
    rw [generate_of_assert_holds ext st aps n m cloud hp]
    simp only [hlen, ne_eq, not_true_eq_false, if_false]
    exact ⟨_, rfl⟩

/-- C12: after a returning `generate` the predictors held are the list
yielded by the external builder with `computeWeights` applied to every
element, position by position; their number is the point count of the cloud;
and every predictor held is the recomputed image of a built one. -/
theorem generate_predictors_recomputed (ext : Collaborators Bias Dist Period Pred Cloud)
    (st st2 : AttributeLods Bias Dist Period Pred)
    (aps : AttributeParameterSet Bias Dist Period) (n m : Int) (cloud : Cloud)
    (h : st.generate ext aps n m cloud = .returned st2) :
    st2.predictors =
      (ext.buildPredictorsFast aps cloud m n st.predictors st.numPointsInLod
        st.indexes).1.map ext.computeWeights ∧
    st2.predictors.length = ext.getPointCount cloud ∧
    (∀ i : Nat, st2.predictors[i]? =
      ((ext.buildPredictorsFast aps cloud m n st.predictors st.numPointsInLod
        st.indexes).1[i]?).map ext.computeWeights) ∧
    (∀ q, q ∈ st2.predictors →
      ∃ r, r ∈ (ext.buildPredictorsFast aps cloud m n st.predictors st.numPointsInLod
        st.indexes).1 ∧ q = ext.computeWeights r) := by
  obtain ⟨-, hlen, hst⟩ := generate_returned_state ext st st2 aps n m cloud h
  subst hst
  refine ⟨rfl, ?_, ?_, ?_⟩
  · simp only [List.length_map, hlen]
  · intro i
    simp only [List.getElem?_map]
  · intro q hq
    obtain ⟨r, hr, hqr⟩ := List.mem_map.mp hq
    exact ⟨r, hr, hqr.symm⟩

/-- C13: after a returning `generate` the stored snapshot is the `aps`
argument and the level counts and ordering are exactly those yielded by the
external builder; the weight pass changes neither, so every property of the
built level counts and ordering holds of the state, among them being
non-decreasing, ending in a given count, and being a permutation of
`[0, N)`. -/
theorem generate_snapshot_and_frame (ext : Collaborators Bias Dist Period Pred Cloud)
    (st st2 : AttributeLods Bias Dist Period Pred)
    (aps : AttributeParameterSet Bias Dist Period) (n m : Int) (cloud : Cloud)
    (h : st.generate ext aps n m cloud = .returned st2) :
    st2._aps = aps ∧
    st2.numPointsInLod =
      (ext.buildPredictorsFast aps cloud m n st.predictors st.numPointsInLod
        st.indexes).2.1 ∧
    st2.indexes =
      (ext.buildPredictorsFast aps cloud m n st.predictors st.numPointsInLod
        st.indexes).2.2 ∧
    (∀ P : List Nat → List Nat → Prop,
      P (ext.buildPredictorsFast aps cloud m n st.predictors st.numPointsInLod
          st.indexes).2.1
        (ext.buildPredictorsFast aps cloud m n st.predictors st.numPointsInLod
          st.indexes).2.2 →
      P st2.numPointsInLod st2.indexes) ∧
    (∀ N : Nat,
      List.Sorted (fun a b => a ≤ b)
          (ext.buildPredictorsFast aps cloud m n st.predictors st.numPointsInLod
            st.indexes).2.1 ∧
        (ext.buildPredictorsFast aps cloud m n st.predictors st.numPointsInLod
            st.indexes).2.1.getLast? = some N ∧
        List.Perm
          (ext.buildPredictorsFast aps cloud m n st.predictors st.numPointsInLod
            st.indexes).2.2 (List.range N) →
      List.Sorted (fun a b => a ≤ b) st2.numPointsInLod ∧
        st2.numPointsInLod.getLast? = some N ∧
        List.Perm st2.indexes (List.range N)) := by
  obtain ⟨-, -, hst⟩ := generate_returned_state ext st st2 aps n m cloud h
  subst hst
  exact ⟨rfl, rfl, rfl, fun _ hP => hP, fun _ hN => hN⟩

/-- C14: `generate` is deterministic and independent of the prior builder
state: with an external builder that is a function of
`(aps, cloud, minGeomNodeSizeLog2, geom_num_points_minus1)` alone, two
returning calls with identical arguments, started from any two states, leave
the same snapshot, predictors, level counts and ordering. -/
theorem generate_deterministic (ext : Collaborators Bias Dist Period Pred Cloud)
    (hext : ext.IgnoresPrevious)
    (stA stB stA2 stB2 : AttributeLods Bias Dist Period Pred)
    (aps : AttributeParameterSet Bias Dist Period) (n m : Int) (cloud : Cloud)
    (hA : stA.generate ext aps n m cloud = .returned stA2)
    (hB : stB.generate ext aps n m cloud = .returned stB2) :
    stA2 = stB2 ∧ stA2._aps = stB2._aps ∧ stA2.predictors = stB2.predictors ∧
      stA2.numPointsInLod = stB2.numPointsInLod ∧ stA2.indexes = stB2.indexes := by
  obtain ⟨-, -, hA2⟩ := generate_returned_state ext stA stA2 aps n m cloud hA
  obtain ⟨-, -, hB2⟩ := generate_returned_state ext stB stB2 aps n m cloud hB
  have hEq : stA2 = stB2 := by
    rw [hA2, hB2, hext aps cloud m n stA.predictors stB.predictors stA.numPointsInLod
      stB.numPointsInLod stA.indexes stB.indexes]
  subst hEq
  exact ⟨rfl, rfl, rfl, rfl, rfl⟩

/-- C15, amended: a `generate` call that fails its precondition never reaches
the external builder, so predictors, level counts and ordering keep their
values from before the call; the snapshot has already been replaced by the
`aps` argument when the assertion fails. -/
theorem generate_fault_keeps_structure (ext : Collaborators Bias Dist Period Pred Cloud)
    (st : AttributeLods Bias Dist Period Pred) (aps : AttributeParameterSet Bias Dist Period)
    (n m : Int) (cloud : Cloud)
    (hm : m > 0) (hs : aps.scalable_lifting_enabled_flag = false) :
    ∃ s, st.generate ext aps n m cloud = .assertScalableLifting s ∧
      s.predictors = st.predictors ∧ s.numPointsInLod = st.numPointsInLod ∧
      s.indexes = st.indexes ∧ s._aps = aps :=
  ⟨_, generate_of_assert_fails ext st aps n m cloud hm hs, rfl, rfl, rfl, rfl⟩

end GenerateProps

/-- Witness for C11: the same call with node size 1 fails the assertion and
with node size 0 returns. -/
theorem generate_faults_iff_precondition_violated_witness :
    ((1 : Int) > 0 ∧ apsPlain.scalable_lifting_enabled_flag = false) ∧
    (∃ s, sampleLods.generate sampleExt apsPlain 2 1 sampleCloud
      = .assertScalableLifting s) ∧
    ((0 : Int) ≤ 0 ∨ apsPlain.scalable_lifting_enabled_flag = true) ∧
    (sampleExt.buildPredictorsFast apsPlain sampleCloud 0 2 sampleLods.predictors
      sampleLods.numPointsInLod sampleLods.indexes).1.length
        = sampleExt.getPointCount sampleCloud ∧
    (∃ s, sampleLods.generate sampleExt apsPlain 2 0 sampleCloud = .returned s) :=
  ⟨⟨by decide, rfl⟩,
    (generate_faults_iff_precondition_violated sampleExt sampleLods apsPlain 2 1
      sampleCloud).1.mpr ⟨by decide, rfl⟩,
    Or.inl (by decide), rfl,
    (generate_faults_iff_precondition_violated sampleExt sampleLods apsPlain 2 0
      sampleCloud).2 (Or.inl (by decide)) rfl⟩

/-- Witness for C12: a rebuild over three points replaces the two stale
predictors by three recomputed ones. -/
theorem generate_predictors_recomputed_witness :
    sampleLods.generate sampleExt apsPlain 2 0 sampleCloud
      = .returned ⟨apsPlain, [(0, 1), (1, 2), (2, 3)], [3], [0, 1, 2]⟩ ∧
    ([(0, 1), (1, 2), (2, 3)] : List SamplePredictor) =
      (sampleExt.buildPredictorsFast apsPlain sampleCloud 0 2 sampleLods.predictors
        sampleLods.numPointsInLod sampleLods.indexes).1.map sampleExt.computeWeights ∧
    ([(0, 1), (1, 2), (2, 3)] : List SamplePredictor).length
      = sampleExt.getPointCount sampleCloud :=
  have h := generate_predictors_recomputed sampleExt sampleLods
    ⟨apsPlain, [(0, 1), (1, 2), (2, 3)], [3], [0, 1, 2]⟩ apsPlain 2 0 sampleCloud rfl
  ⟨rfl, h.1, h.2.1⟩

/-- Witness for C13 on the same rebuild. -/
theorem generate_snapshot_and_frame_witness :
    sampleLods.generate sampleExt apsWide 2 0 sampleCloud
      = .returned ⟨apsWide, [(0, 1), (1, 2), (2, 3)], [3], [0, 1, 2]⟩ ∧
    (⟨apsWide, [(0, 1), (1, 2), (2, 3)], [3], [0, 1, 2]⟩ : SampleLods)._aps = apsWide ∧
    ([3] : List Nat) =
      (sampleExt.buildPredictorsFast apsWide sampleCloud 0 2 sampleLods.predictors
        sampleLods.numPointsInLod sampleLods.indexes).2.1 :=
  have h := generate_snapshot_and_frame sampleExt sampleLods
    ⟨apsWide, [(0, 1), (1, 2), (2, 3)], [3], [0, 1, 2]⟩ apsWide 2 0 sampleCloud rfl
  ⟨rfl, h.1, h.2.1⟩

/-- Witness for C14: a state left by an earlier build and a fresh state end
in the same state. -/
theorem generate_deterministic_witness :
    sampleExt.IgnoresPrevious ∧
    sampleLods.generate sampleExt apsScalable 2 1 sampleCloud
      = .returned ⟨apsScalable, [(0, 1), (1, 2), (2, 3)], [3], [0, 1, 2]⟩ ∧
    sampleLodsFresh.generate sampleExt apsScalable 2 1 sampleCloud
      = .returned ⟨apsScalable, [(0, 1), (1, 2), (2, 3)], [3], [0, 1, 2]⟩ ∧
    (⟨apsScalable, [(0, 1), (1, 2), (2, 3)], [3], [0, 1, 2]⟩ : SampleLods)
      = ⟨apsScalable, [(0, 1), (1, 2), (2, 3)], [3], [0, 1, 2]⟩ :=
  ⟨fun _ _ _ _ _ _ _ _ _ _ => rfl, rfl, rfl,
    (generate_deterministic sampleExt (fun _ _ _ _ _ _ _ _ _ _ => rfl) sampleLods
      sampleLodsFresh _ _ apsScalable 2 1 sampleCloud rfl rfl).1⟩

/-- C15, as stated, fails: when the assertion fails the snapshot already is
the new parameter set, while the structure held is still the one built for
the previous snapshot. -/
theorem generate_fault_changes_snapshot :
    ((1 : Int) > 0 ∧ apsWide.scalable_lifting_enabled_flag = false) ∧
    sampleLods.generate sampleExt apsWide 2 1 sampleCloud
      = .assertScalableLifting ⟨apsWide, [(0, 7), (0, 9)], [1, 2], [1, 0]⟩ ∧
    sampleLods._aps = apsPlain ∧
    (sampleLods.generate sampleExt apsWide 2 1 sampleCloud).state._aps ≠ sampleLods._aps :=
  ⟨⟨by decide, rfl⟩, rfl, rfl, by decide⟩

/-- Witness for amended C15. -/
theorem generate_fault_keeps_structure_witness :
    ((1 : Int) > 0 ∧ apsWide.scalable_lifting_enabled_flag = false) ∧
    ∃ s, sampleLods.generate sampleExt apsWide 2 1 sampleCloud = .assertScalableLifting s ∧
      s.predictors = sampleLods.predictors ∧ s.numPointsInLod = sampleLods.numPointsInLod ∧
      s.indexes = sampleLods.indexes ∧ s._aps = apsWide :=
  ⟨⟨by decide, rfl⟩,
    generate_fault_keeps_structure sampleExt sampleLods apsWide 2 1 sampleCloud
      (by decide) rfl⟩

/-! ## Further properties of the reuse query -/

section ReuseHyper

variable {Bias Dist Period Pred : Type}
variable [DecidableEq Bias] [DecidableEq Dist] [DecidableEq Period]

/-- C16, amended: `dist2` and `lodSamplingPeriod` are read only after the
decimation flags of the stored snapshot and of the new set were found equal.
When the two flags differ, the result of `isReusable` is the same whatever
`dist2` and `lodSamplingPeriod` hold on either side. When the flags agree,
decimation disabled on both included, the two members are compared: over a
held structure with LoD parameters on both sides, a difference in either
makes the result false. -/
theorem isReusable_dist2_period_dependence (st : AttributeLods Bias Dist Period Pred)
    (aps : AttributeParameterSet Bias Dist Period) :
    (st._aps.lod_decimation_enabled_flag ≠ aps.lod_decimation_enabled_flag →
      ∀ (d1 d2 : Dist) (p1 p2 : Period),
        (AttributeLods.mk (st._aps.withDist2AndPeriod d1 p1) st.predictors
            st.numPointsInLod st.indexes).isReusable (aps.withDist2AndPeriod d2 p2)
          = st.isReusable aps) ∧
    (st._aps.lod_decimation_enabled_flag = aps.lod_decimation_enabled_flag →
      st.numPointsInLod ≠ [] →
      st._aps.lodParametersPresent = true → aps.lodParametersPresent = true →
      (st._aps.dist2 ≠ aps.dist2 ∨ st._aps.lodSamplingPeriod ≠ aps.lodSamplingPeriod) →
      st.isReusable aps = false) := by
  constructor
  · intro hd d1 d2 p1 p2
    have hb : (st._aps.lod_decimation_enabled_flag != aps.lod_decimation_enabled_flag)
        = true := by
      simpa [bne_iff_ne] using hd
    rw [isReusable_eq_bool, isReusable_eq_bool]
    simp only [AttributeParameterSet.withDist2AndPeriod, hb, Bool.not_true, Bool.false_and,
      Bool.and_false]
  · intro _ hL h1 h2 hne
    cases hr : st.isReusable aps with
    | false => rfl
    | true =>
      rcases (isReusable_eq_true_iff st aps).mp hr with h | h | h | ⟨he, -, -⟩
      · exact absurd h hL
      · rw [h1] at h; cases h
      · rw [h2] at h; cases h
      · rcases hne with hne | hne
        · exact absurd he.2.2.2.2.2.1 hne
        · exact absurd he.2.2.2.2.2.2.1 hne

/-- C17: `isReusable` is symmetric in the two parameter sets: over the same
level counts, a builder whose snapshot is `A` answers for `B` what a builder
whose snapshot is `B` answers for `A`. -/
theorem isReusable_symmetric (A B : AttributeParameterSet Bias Dist Period)
    (L : List Nat) (pA pB : List Pred) (iA iB : List Nat) :
    (AttributeLods.mk A pA L iA).isReusable B = (AttributeLods.mk B pB L iB).isReusable A := by
  rw [Bool.eq_iff_iff, isReusable_eq_true_iff, isReusable_eq_true_iff]
  constructor
  · rintro (h | h | h | ⟨⟨e1, e2, e3, e4, e5, e6, e7, e8, e9⟩, s1, s2⟩)
    · exact Or.inl h
    · exact Or.inr (Or.inr (Or.inl h))
    · exact Or.inr (Or.inl h)
    · exact Or.inr (Or.inr (Or.inr
        ⟨⟨e1.symm, e2.symm, e3.symm, e4.symm, e5.symm, e6.symm, e7.symm, e8.symm, e9.symm⟩,
          s2, s1⟩))
  · rintro (h | h | h | ⟨⟨e1, e2, e3, e4, e5, e6, e7, e8, e9⟩, s1, s2⟩)
    · exact Or.inl h
    · exact Or.inr (Or.inr (Or.inl h))
    · exact Or.inr (Or.inl h)
    · exact Or.inr (Or.inr (Or.inr
        ⟨⟨e1.symm, e2.symm, e3.symm, e4.symm, e5.symm, e6.symm, e7.symm, e8.symm, e9.symm⟩,
          s2, s1⟩))

end ReuseHyper

/-- C16, as stated, fails: with decimation disabled on both sides, changing
only `dist2`, or only `lodSamplingPeriod`, of the new set turns the answer
from true to false. -/
theorem isReusable_depends_on_dist2_without_decimation :
    (lodsOf apsNoDecimation)._aps.lod_decimation_enabled_flag = false ∧
    apsNoDecimation.lod_decimation_enabled_flag = false ∧
    (apsNoDecimation.withDist2AndPeriod 9 [4, 4, 4]).lod_decimation_enabled_flag = false ∧
    (lodsOf apsNoDecimation).isReusable apsNoDecimation = true ∧
    (lodsOf apsNoDecimation).isReusable (apsNoDecimation.withDist2AndPeriod 9 [4, 4, 4])
      = false ∧
    (lodsOf apsNoDecimation).isReusable (apsNoDecimation.withDist2AndPeriod 4 [7])
      = false := by
  decide

/-- Witness for amended C16: the decimation flags differ, and replacing
`dist2` and the sampling periods on both sides leaves the answer as it was;
with equal flags, a different `dist2` gives false. -/
theorem isReusable_dist2_period_dependence_witness :
    ((lodsOf apsPlain)._aps.lod_decimation_enabled_flag
        ≠ apsNoDecimation.lod_decimation_enabled_flag) ∧
    (AttributeLods.mk ((lodsOf apsPlain)._aps.withDist2AndPeriod 9 [1]) (lodsOf apsPlain).predictors
        (lodsOf apsPlain).numPointsInLod (lodsOf apsPlain).indexes).isReusable
          (apsNoDecimation.withDist2AndPeriod 5 [2, 2])
      = (lodsOf apsPlain).isReusable apsNoDecimation ∧
    (lodsOf apsNoDecimation).isReusable (apsNoDecimation.withDist2AndPeriod 9 [4, 4, 4])
      = false :=
  ⟨by decide,
    (isReusable_dist2_period_dependence (lodsOf apsPlain) apsNoDecimation).1 (by decide)
      9 5 [1] [2, 2],
    (isReusable_dist2_period_dependence (lodsOf apsNoDecimation)
      (apsNoDecimation.withDist2AndPeriod 9 [4, 4, 4])).2 rfl (by decide) rfl rfl
      (Or.inl (by decide))⟩

end pcc
